import Mathlib

/-!
Shallow embedding of the tada desktop data store
(src/packages/desktop/src-tauri/src/lib.rs).

The source registers a single SQLite migration (version 1,
"create_initial_tables", kind Up) with the tauri_plugin_sql plugin.  Its SQL
script creates five tables (lists, tasks, subtasks, summaries, settings),
seeds one default list row and three default settings rows with
INSERT OR IGNORE, and creates five indexes, every statement written with
IF NOT EXISTS / OR IGNORE guards.

The embedding models a store as typed row lists (one per table, `none`
meaning the table does not exist yet) plus the set of created index names and
the recorded schema version.  The migration script is translated statement by
statement; each statement reports how many writes it performed (a created
table or index, an inserted row), so that the "zero additional writes"
properties can be stated.  Time is passed explicitly: `now` is the current
epoch time in seconds, and the SQL default `strftime(\x27%s\x27,\x27now\x27) * 1000`
becomes `now * 1000` (epoch milliseconds), as in the source DDL.

Foreign-key delete actions declared in the DDL (tasks.list_id ON DELETE SET
NULL, subtasks.parent_id ON DELETE CASCADE) are modelled as explicit delete
operations on the store.

A second, column-level view of the same DDL (`Column` descriptors and the
generic `insertCols` insert semantics) covers the claims about column names,
NOT NULL constraints and column defaults.
-/

/-- Kind of a migration, mirroring tauri_plugin_sql MigrationKind. -/
inductive MigrationKind where
  | Up
  | Down
deriving DecidableEq

/-- Registry entry, mirroring the tauri_plugin_sql Migration struct (the sql
field is embedded separately as the effect of the single registered step). -/
structure Migration where
  version : Nat
  description : String
  kind : MigrationKind
deriving DecidableEq

/-- Migration registry of src/lib.rs: the single version-1 step. -/
def migrations : List Migration :=
  [⟨1, "create_initial_tables", MigrationKind.Up⟩]

/-- Row of the lists table (lib.rs lines 11-19). -/
structure ListRow where
  id : String
  name : String
  icon : Option String
  color : Option String
  order : Option Int
  created_at : Int
  updated_at : Int
deriving DecidableEq

/-- Row of the tasks table (lib.rs lines 22-39). -/
structure TaskRow where
  id : String
  title : String
  completed : Int
  completed_at : Option Int
  complete_percentage : Option Int
  due_date : Option Int
  list_id : Option String
  list_name : String
  content : Option String
  order : Int
  created_at : Int
  updated_at : Int
  tags : Option String
  priority : Option Int
  group_category : String
deriving DecidableEq

/-- Row of the subtasks table (lib.rs lines 42-53). -/
structure SubtaskRow where
  id : String
  parent_id : String
  title : String
  completed : Int
  completed_at : Option Int
  due_date : Option Int
  order : Int
  created_at : Int
  updated_at : Int
deriving DecidableEq

/-- Row of the summaries table (lib.rs lines 56-64). -/
structure SummaryRow where
  id : String
  created_at : Int
  updated_at : Int
  period_key : String
  list_key : String
  task_ids : String
  summary_text : String
deriving DecidableEq

/-- Row of the settings table (lib.rs lines 67-71). -/
structure SettingRow where
  key : String
  value : String
  updated_at : Int
deriving DecidableEq

/-- State of the SQLite database file.  A table is `none` until its CREATE
TABLE statement has run; `indexes` records created index names; `version` is
the schema version metadata kept by the migration engine (0 when absent). -/
structure Store where
  listsTable : Option (List ListRow)
  tasksTable : Option (List TaskRow)
  subtasksTable : Option (List SubtaskRow)
  summariesTable : Option (List SummaryRow)
  settingsTable : Option (List SettingRow)
  indexes : List String
  version : Nat
deriving DecidableEq

/-- Brand-new (empty) store: no tables, no indexes, no version metadata. -/
def emptyStore : Store :=
  ⟨none, none, none, none, none, [], 0⟩

/-- Default value of the appearance setting (lib.rs line 78). -/
def appearanceDefault : String :=
  "\x7b\"themeId\":\"default-coral\",\"darkMode\":\"system\",\"interfaceDensity\":\"default\"\x7d"

/-- Default value of the preferences setting (lib.rs line 79). -/
def preferencesDefault : String :=
  "\x7b\"language\":\"zh-CN\",\"defaultNewTaskDueDate\":null,\"defaultNewTaskPriority\":null,\"defaultNewTaskList\":\"Inbox\",\"confirmDeletions\":true\x7d"

/-- Default value of the ai setting (lib.rs line 80). -/
def aiDefault : String :=
  "\x7b\"provider\":\"openai\",\"apiKey\":\"\",\"model\":\"\",\"baseUrl\":\"\",\"availableModels\":[]\x7d"

/-- CREATE TABLE IF NOT EXISTS lists: creates the empty table (one write)
unless it already exists. -/
def createListsTable (s : Store) : Store × Nat :=
  match s.listsTable with
  | some _ => (s, 0)
  | none => ({ s with listsTable := some [] }, 1)

/-- CREATE TABLE IF NOT EXISTS tasks. -/
def createTasksTable (s : Store) : Store × Nat :=
  match s.tasksTable with
  | some _ => (s, 0)
  | none => ({ s with tasksTable := some [] }, 1)

/-- CREATE TABLE IF NOT EXISTS subtasks. -/
def createSubtasksTable (s : Store) : Store × Nat :=
  match s.subtasksTable with
  | some _ => (s, 0)
  | none => ({ s with subtasksTable := some [] }, 1)

/-- CREATE TABLE IF NOT EXISTS summaries. -/
def createSummariesTable (s : Store) : Store × Nat :=
  match s.summariesTable with
  | some _ => (s, 0)
  | none => ({ s with summariesTable := some [] }, 1)

/-- CREATE TABLE IF NOT EXISTS settings. -/
def createSettingsTable (s : Store) : Store × Nat :=
  match s.settingsTable with
  | some _ => (s, 0)
  | none => ({ s with settingsTable := some [] }, 1)

/-- INSERT OR IGNORE INTO lists (id, name, icon, "order")
VALUES (\x27inbox-default\x27, \x27Inbox\x27, \x27inbox\x27, 1): ignored when a row with the
same primary key exists; the omitted color column is NULL and the omitted
created_at / updated_at columns take their current-time defaults. -/
def seedInbox (now : Int) (s : Store) : Store × Nat :=
  match s.listsTable with
  | none => (s, 0)
  | some rows =>
    if rows.any (fun l => l.id == "inbox-default") then (s, 0)
    else
      let row : ListRow :=
        ⟨"inbox-default", "Inbox", some "inbox", none, some 1, now * 1000, now * 1000⟩
      ({ s with listsTable := some (rows ++ [row]) }, 1)

/-- INSERT OR IGNORE INTO settings (key, value) of a single row: ignored when
a row with the same key exists; updated_at takes its current-time default.
The three-row VALUES list of the source conflict-checks each row
independently, so it is the sequential composition of three of these. -/
def seedSetting (now : Int) (k v : String) (s : Store) : Store × Nat :=
  match s.settingsTable with
  | none => (s, 0)
  | some rows =>
    if rows.any (fun r => r.key == k) then (s, 0)
    else ({ s with settingsTable := some (rows ++ [⟨k, v, now * 1000⟩]) }, 1)

/-- CREATE INDEX IF NOT EXISTS n: records the index name (one write) unless
already present. -/
def createIndex (n : String) (s : Store) : Store × Nat :=
  if n ∈ s.indexes then (s, 0)
  else ({ s with indexes := s.indexes ++ [n] }, 1)

/-- Runs a list of statements in order, accumulating write counts. -/
def runStages : List (Store → Store × Nat) → Store → Store × Nat
  | [], s => (s, 0)
  | f :: fs, s => ((runStages fs (f s).1).1, (f s).2 + (runStages fs (f s).1).2)

/-- Statements of the version-1 migration script (lib.rs lines 9-88): the
five CREATE TABLE statements, the seeding INSERT OR IGNORE statements (the
three-row settings VALUES list conflict-checks each row independently) and
the five CREATE INDEX statements, in source order. -/
def migration1Statements (now : Int) : List (Store → Store × Nat) :=
  [createListsTable, createTasksTable, createSubtasksTable, createSummariesTable,
   createSettingsTable,
   seedInbox now,
   seedSetting now "appearance" appearanceDefault,
   seedSetting now "preferences" preferencesDefault,
   seedSetting now "ai" aiDefault,
   createIndex "idx_tasks_list_id", createIndex "idx_tasks_completed",
   createIndex "idx_tasks_due_date", createIndex "idx_subtasks_parent_id",
   createIndex "idx_summaries_period_list"]

/-- Runs the version-1 migration script on a store, returning the resulting
store and the number of writes performed (created tables and indexes,
inserted rows). -/
def migration1Effect (now : Int) (s : Store) : Store × Nat :=
  runStages (migration1Statements now) s

/-- Modelled from the spec: applying one registry step runs its effect and
records its version (spec section 4.2 step 4); the engine itself lives in the
tauri_plugin_sql dependency and is not part of src/.  Only version 1 has a
registered effect in this program. -/
def applyStep (now : Int) (m : Migration) (s : Store) : Store × Nat :=
  if m.version = 1 then
    let a := migration1Effect now s
    ({ a.1 with version := m.version }, a.2)
  else (s, 0)

/-- Modelled from the spec: the open algorithm of spec section 4.2 (the
migration engine is the tauri_plugin_sql dependency, not in src/): read the
current version (0 when absent, as in `emptyStore`), apply every registry
step with a larger version in ascending registry order, recording each
applied version.  Returns the ready store and the total number of writes. -/
def openStore (now : Int) (s : Store) : Store × Nat :=
  runStages ((migrations.filter (fun m => s.version < m.version)).map
    (applyStep now)) s

/-- DELETE FROM lists WHERE id = lid, with the declared foreign-key action of
tasks.list_id (lib.rs line 38, ON DELETE SET NULL): every task row whose
list_id references the deleted list has its list_id set to NULL; no task row
is removed and no other column is touched. -/
def deleteList (lid : String) (s : Store) : Store :=
  { s with
    listsTable := s.listsTable.map (fun rows => rows.filter (fun l => !(l.id == lid))),
    tasksTable := s.tasksTable.map (fun rows => rows.map (fun t =>
      if t.list_id = some lid then { t with list_id := none } else t)) }

/-- DELETE FROM tasks WHERE id = tid, with the declared foreign-key action of
subtasks.parent_id (lib.rs line 52, ON DELETE CASCADE): every subtask row
whose parent_id references the deleted task is deleted with it. -/
def deleteTask (tid : String) (s : Store) : Store :=
  { s with
    tasksTable := s.tasksTable.map (fun rows => rows.filter (fun t => !(t.id == tid))),
    subtasksTable := s.subtasksTable.map (fun rows =>
      rows.filter (fun st => !(st.parent_id == tid))) }

/-- Type of a SQLite value as used by this schema. -/
inductive SqlValue where
  | int (n : Int)
  | text (s : String)
deriving DecidableEq

/-- Declared type of a column in the DDL. -/
inductive ColType where
  | integer
  | text
deriving DecidableEq

/-- Declared DEFAULT clause of a column: none, a literal, or the
current-time expression strftime(\x27%s\x27,\x27now\x27) * 1000 of the DDL. -/
inductive ColDefault where
  | noDefault
  | intLit (n : Int)
  | textLit (s : String)
  | nowMillis
deriving DecidableEq

/-- Column descriptor, read off the CREATE TABLE statements.  In SQLite a
TEXT PRIMARY KEY column is not implicitly NOT NULL, so `notNull` records only
an explicit NOT NULL clause. -/
structure Column where
  name : String
  ctype : ColType
  notNull : Bool
  primaryKey : Bool
  dflt : ColDefault
deriving DecidableEq

/-- Columns of the lists table (lib.rs lines 11-19). -/
def listsColumns : List Column :=
  [⟨"id", ColType.text, false, true, ColDefault.noDefault⟩,
   ⟨"name", ColType.text, true, false, ColDefault.noDefault⟩,
   ⟨"icon", ColType.text, false, false, ColDefault.noDefault⟩,
   ⟨"color", ColType.text, false, false, ColDefault.noDefault⟩,
   ⟨"order", ColType.integer, false, false, ColDefault.noDefault⟩,
   ⟨"created_at", ColType.integer, true, false, ColDefault.nowMillis⟩,
   ⟨"updated_at", ColType.integer, true, false, ColDefault.nowMillis⟩]

/-- Columns of the tasks table (lib.rs lines 22-39). -/
def tasksColumns : List Column :=
  [⟨"id", ColType.text, false, true, ColDefault.noDefault⟩,
   ⟨"title", ColType.text, true, false, ColDefault.noDefault⟩,
   ⟨"completed", ColType.integer, true, false, ColDefault.intLit 0⟩,
   ⟨"completed_at", ColType.integer, false, false, ColDefault.noDefault⟩,
   ⟨"complete_percentage", ColType.integer, false, false, ColDefault.noDefault⟩,
   ⟨"due_date", ColType.integer, false, false, ColDefault.noDefault⟩,
   ⟨"list_id", ColType.text, false, false, ColDefault.noDefault⟩,
   ⟨"list_name", ColType.text, true, false, ColDefault.noDefault⟩,
   ⟨"content", ColType.text, false, false, ColDefault.noDefault⟩,
   ⟨"order", ColType.integer, true, false, ColDefault.noDefault⟩,
   ⟨"created_at", ColType.integer, true, false, ColDefault.noDefault⟩,
   ⟨"updated_at", ColType.integer, true, false, ColDefault.noDefault⟩,
   ⟨"tags", ColType.text, false, false, ColDefault.noDefault⟩,
   ⟨"priority", ColType.integer, false, false, ColDefault.noDefault⟩,
   ⟨"group_category", ColType.text, true, false, ColDefault.textLit "nodate"⟩]

/-- Columns of the subtasks table (lib.rs lines 42-53). -/
def subtasksColumns : List Column :=
  [⟨"id", ColType.text, false, true, ColDefault.noDefault⟩,
   ⟨"parent_id", ColType.text, true, false, ColDefault.noDefault⟩,
   ⟨"title", ColType.text, true, false, ColDefault.noDefault⟩,
   ⟨"completed", ColType.integer, true, false, ColDefault.intLit 0⟩,
   ⟨"completed_at", ColType.integer, false, false, ColDefault.noDefault⟩,
   ⟨"due_date", ColType.integer, false, false, ColDefault.noDefault⟩,
   ⟨"order", ColType.integer, true, false, ColDefault.noDefault⟩,
   ⟨"created_at", ColType.integer, true, false, ColDefault.noDefault⟩,
   ⟨"updated_at", ColType.integer, true, false, ColDefault.noDefault⟩]

/-- Columns of the summaries table (lib.rs lines 56-64). -/
def summariesColumns : List Column :=
  [⟨"id", ColType.text, false, true, ColDefault.noDefault⟩,
   ⟨"created_at", ColType.integer, true, false, ColDefault.noDefault⟩,
   ⟨"updated_at", ColType.integer, true, false, ColDefault.noDefault⟩,
   ⟨"period_key", ColType.text, true, false, ColDefault.noDefault⟩,
   ⟨"list_key", ColType.text, true, false, ColDefault.noDefault⟩,
   ⟨"task_ids", ColType.text, true, false, ColDefault.noDefault⟩,
   ⟨"summary_text", ColType.text, true, false, ColDefault.noDefault⟩]

/-- Columns of the settings table (lib.rs lines 67-71). -/
def settingsColumns : List Column :=
  [⟨"key", ColType.text, false, true, ColDefault.noDefault⟩,
   ⟨"value", ColType.text, true, false, ColDefault.noDefault⟩,
   ⟨"updated_at", ColType.integer, true, false, ColDefault.nowMillis⟩]

/-- SQLite value resolution for one column of an INSERT: a provided value is
used as is; an omitted column takes its declared default, NULL when it has
none, and the insert fails on an omitted NOT NULL column with no default.
`now` is the current epoch time in seconds, so nowMillis yields now * 1000. -/
def resolveColumn (now : Int) (provided : List (String × SqlValue)) (c : Column) :
    Except String (Option SqlValue) :=
  match provided.find? (fun p => p.1 == c.name) with
  | some p => Except.ok (some p.2)
  | none =>
    match c.dflt with
    | ColDefault.intLit n => Except.ok (some (SqlValue.int n))
    | ColDefault.textLit v => Except.ok (some (SqlValue.text v))
    | ColDefault.nowMillis => Except.ok (some (SqlValue.int (now * 1000)))
    | ColDefault.noDefault =>
      if c.notNull then Except.error ("NOT NULL constraint failed: " ++ c.name)
      else Except.ok none

/-- Row built by an INSERT that provides the listed column values: each
schema column is resolved in order; the first constraint failure aborts the
statement. -/
def insertCols (now : Int) (provided : List (String × SqlValue)) :
    List Column → Except String (List (String × Option SqlValue))
  | [] => Except.ok []
  | c :: cs =>
    match resolveColumn now provided c, insertCols now provided cs with
    | Except.ok v, Except.ok r => Except.ok ((c.name, v) :: r)
    | Except.error e, _ => Except.error e
    | Except.ok _, Except.error e => Except.error e

/-- The lists table exists and holds a row with the seeded inbox id. -/
def HasInbox (s : Store) : Prop :=
  ∃ lr, s.listsTable = some lr ∧ lr.any (fun l => l.id == "inbox-default") = true

/-- The settings table exists and holds a row with key k. -/
def HasSettingKey (k : String) (s : Store) : Prop :=
  ∃ sr, s.settingsTable = some sr ∧ sr.any (fun r => r.key == k) = true

/-- Everything the version-1 migration script guarantees: all five tables
exist, the inbox list row and the three default setting keys are present, and
the five indexes are created.  On such a store every statement of the script
is a no-op. -/
def Migrated (s : Store) : Prop :=
  s.listsTable.isSome = true ∧ s.tasksTable.isSome = true ∧
  s.subtasksTable.isSome = true ∧ s.summariesTable.isSome = true ∧
  s.settingsTable.isSome = true ∧
  HasInbox s ∧ HasSettingKey "appearance" s ∧ HasSettingKey "preferences" s ∧
  HasSettingKey "ai" s ∧
  "idx_tasks_list_id" ∈ s.indexes ∧ "idx_tasks_completed" ∈ s.indexes ∧
  "idx_tasks_due_date" ∈ s.indexes ∧ "idx_subtasks_parent_id" ∈ s.indexes ∧
  "idx_summaries_period_list" ∈ s.indexes

/-- Frame of the ON DELETE SET NULL action on one task row: every column
except list_id is unchanged, and list_id is nulled exactly when it referenced
the deleted list. -/
def TaskOrphanFrame (lid : String) (t t2 : TaskRow) : Prop :=
  t2.id = t.id ∧ t2.title = t.title ∧ t2.completed = t.completed ∧
  t2.completed_at = t.completed_at ∧
  t2.complete_percentage = t.complete_percentage ∧
  t2.due_date = t.due_date ∧ t2.list_name = t.list_name ∧
  t2.content = t.content ∧ t2.order = t.order ∧
  t2.created_at = t.created_at ∧ t2.updated_at = t.updated_at ∧
  t2.tags = t.tags ∧ t2.priority = t.priority ∧
  t2.group_category = t.group_category ∧
  t2.list_id = (if t.list_id = some lid then none else t.list_id)

/-- Sample list row used to instantiate theorems on a concrete store. -/
def listRowSample : ListRow :=
  ⟨"l1", "Personal", none, none, some 2, 5, 5⟩

/-- Sample task row referencing listRowSample. -/
def taskSample : TaskRow :=
  ⟨"t1", "Write report", 0, none, none, none, some "l1", "Personal", none, 1,
    5, 5, none, none, "nodate"⟩

/-- Sample subtask row whose parent is taskSample. -/
def subtaskSample : SubtaskRow :=
  ⟨"st1", "t1", "Draft outline", 0, none, none, 1, 5, 5⟩

/-- Sample subtask row with a different parent. -/
def subtaskSample2 : SubtaskRow :=
  ⟨"st2", "t2", "Other work", 0, none, none, 1, 5, 5⟩

/-- Sample settings row with a user-modified appearance payload. -/
def settingSample : SettingRow :=
  ⟨"appearance", "custom-payload", 7⟩

/-- Sample populated store at schema version 1. -/
def storeSample : Store :=
  ⟨some [listRowSample], some [taskSample], some [subtaskSample, subtaskSample2],
    some [], some [settingSample], [], 1⟩

/-- Sample INSERT INTO tasks value list that omits completed, tags and
group_category. -/
def taskInsertSample : List (String × SqlValue) :=
  [("id", SqlValue.text "t9"), ("title", SqlValue.text "New task"),
   ("list_name", SqlValue.text "Personal"), ("order", SqlValue.int 1),
   ("created_at", SqlValue.int 5), ("updated_at", SqlValue.int 5)]

/-- Row produced by taskInsertSample. -/
def taskInsertResult : List (String × Option SqlValue) :=
  [("id", some (SqlValue.text "t9")), ("title", some (SqlValue.text "New task")),
   ("completed", some (SqlValue.int 0)), ("completed_at", none),
   ("complete_percentage", none), ("due_date", none), ("list_id", none),
   ("list_name", some (SqlValue.text "Personal")), ("content", none),
   ("order", some (SqlValue.int 1)), ("created_at", some (SqlValue.int 5)),
   ("updated_at", some (SqlValue.int 5)), ("tags", none), ("priority", none),
   ("group_category", some (SqlValue.text "nodate"))]

/-- Sample INSERT INTO subtasks value list that omits completed. -/
def subtaskInsertSample : List (String × SqlValue) :=
  [("id", SqlValue.text "st9"), ("parent_id", SqlValue.text "t9"),
   ("title", SqlValue.text "New part"), ("order", SqlValue.int 1),
   ("created_at", SqlValue.int 5), ("updated_at", SqlValue.int 5)]

/-- Row produced by subtaskInsertSample. -/
def subtaskInsertResult : List (String × Option SqlValue) :=
  [("id", some (SqlValue.text "st9")), ("parent_id", some (SqlValue.text "t9")),
   ("title", some (SqlValue.text "New part")), ("completed", some (SqlValue.int 0)),
   ("completed_at", none), ("due_date", none), ("order", some (SqlValue.int 1)),
   ("created_at", some (SqlValue.int 5)), ("updated_at", some (SqlValue.int 5))]

/-- Sample value list that omits both timestamp columns. -/
def omitTimestampsSample : List (String × SqlValue) :=
  [("id", SqlValue.text "x")]

theorem createListsTable_isSome (s : Store) :
    ((createListsTable s).1).listsTable.isSome = true := by
  cases h : s.listsTable <;> simp [createListsTable, h]

theorem createListsTable_some (s : Store) (rows) (h : s.listsTable = some rows) :
    ((createListsTable s).1).listsTable = some rows := by
  simp [createListsTable, h]

theorem createListsTable_noop (s : Store) (h : s.listsTable.isSome = true) :
    createListsTable s = (s, 0) := by
  cases h2 : s.listsTable
  · rw [h2] at h; simp at h
  · simp [createListsTable, h2]

theorem createListsTable_tasksTable (s : Store) :
    ((createListsTable s).1).tasksTable = s.tasksTable := by
  cases h : s.listsTable <;> simp [createListsTable, h]

theorem createListsTable_subtasksTable (s : Store) :
    ((createListsTable s).1).subtasksTable = s.subtasksTable := by
  cases h : s.listsTable <;> simp [createListsTable, h]

theorem createListsTable_summariesTable (s : Store) :
    ((createListsTable s).1).summariesTable = s.summariesTable := by
  cases h : s.listsTable <;> simp [createListsTable, h]

theorem createListsTable_settingsTable (s : Store) :
    ((createListsTable s).1).settingsTable = s.settingsTable := by
  cases h : s.listsTable <;> simp [createListsTable, h]

theorem createListsTable_indexes (s : Store) :
    ((createListsTable s).1).indexes = s.indexes := by
  cases h : s.listsTable <;> simp [createListsTable, h]

theorem createTasksTable_isSome (s : Store) :
    ((createTasksTable s).1).tasksTable.isSome = true := by
  cases h : s.tasksTable <;> simp [createTasksTable, h]

theorem createTasksTable_some (s : Store) (rows) (h : s.tasksTable = some rows) :
    ((createTasksTable s).1).tasksTable = some rows := by
  simp [createTasksTable, h]

theorem createTasksTable_noop (s : Store) (h : s.tasksTable.isSome = true) :
    createTasksTable s = (s, 0) := by
  cases h2 : s.tasksTable
  · rw [h2] at h; simp at h
  · simp [createTasksTable, h2]

theorem createTasksTable_listsTable (s : Store) :
    ((createTasksTable s).1).listsTable = s.listsTable := by
  cases h : s.tasksTable <;> simp [createTasksTable, h]

theorem createTasksTable_subtasksTable (s : Store) :
    ((createTasksTable s).1).subtasksTable = s.subtasksTable := by
  cases h : s.tasksTable <;> simp [createTasksTable, h]

theorem createTasksTable_summariesTable (s : Store) :
    ((createTasksTable s).1).summariesTable = s.summariesTable := by
  cases h : s.tasksTable <;> simp [createTasksTable, h]

theorem createTasksTable_settingsTable (s : Store) :
    ((createTasksTable s).1).settingsTable = s.settingsTable := by
  cases h : s.tasksTable <;> simp [createTasksTable, h]

theorem createTasksTable_indexes (s : Store) :
    ((createTasksTable s).1).indexes = s.indexes := by
  cases h : s.tasksTable <;> simp [createTasksTable, h]

theorem createSubtasksTable_isSome (s : Store) :
    ((createSubtasksTable s).1).subtasksTable.isSome = true := by
  cases h : s.subtasksTable <;> simp [createSubtasksTable, h]

theorem createSubtasksTable_some (s : Store) (rows) (h : s.subtasksTable = some rows) :
    ((createSubtasksTable s).1).subtasksTable = some rows := by
  simp [createSubtasksTable, h]

theorem createSubtasksTable_noop (s : Store) (h : s.subtasksTable.isSome = true) :
    createSubtasksTable s = (s, 0) := by
  cases h2 : s.subtasksTable
  · rw [h2] at h; simp at h
  · simp [createSubtasksTable, h2]

theorem createSubtasksTable_listsTable (s : Store) :
    ((createSubtasksTable s).1).listsTable = s.listsTable := by
  cases h : s.subtasksTable <;> simp [createSubtasksTable, h]

theorem createSubtasksTable_tasksTable (s : Store) :
    ((createSubtasksTable s).1).tasksTable = s.tasksTable := by
  cases h : s.subtasksTable <;> simp [createSubtasksTable, h]

theorem createSubtasksTable_summariesTable (s : Store) :
    ((createSubtasksTable s).1).summariesTable = s.summariesTable := by
  cases h : s.subtasksTable <;> simp [createSubtasksTable, h]

theorem createSubtasksTable_settingsTable (s : Store) :
    ((createSubtasksTable s).1).settingsTable = s.settingsTable := by
  cases h : s.subtasksTable <;> simp [createSubtasksTable, h]

theorem createSubtasksTable_indexes (s : Store) :
    ((createSubtasksTable s).1).indexes = s.indexes := by
  cases h : s.subtasksTable <;> simp [createSubtasksTable, h]

theorem createSummariesTable_isSome (s : Store) :
    ((createSummariesTable s).1).summariesTable.isSome = true := by
  cases h : s.summariesTable <;> simp [createSummariesTable, h]

theorem createSummariesTable_some (s : Store) (rows) (h : s.summariesTable = some rows) :
    ((createSummariesTable s).1).summariesTable = some rows := by
  simp [createSummariesTable, h]

theorem createSummariesTable_noop (s : Store) (h : s.summariesTable.isSome = true) :
    createSummariesTable s = (s, 0) := by
  cases h2 : s.summariesTable
  · rw [h2] at h; simp at h
  · simp [createSummariesTable, h2]

theorem createSummariesTable_listsTable (s : Store) :
    ((createSummariesTable s).1).listsTable = s.listsTable := by
  cases h : s.summariesTable <;> simp [createSummariesTable, h]

theorem createSummariesTable_tasksTable (s : Store) :
    ((createSummariesTable s).1).tasksTable = s.tasksTable := by
  cases h : s.summariesTable <;> simp [createSummariesTable, h]

theorem createSummariesTable_subtasksTable (s : Store) :
    ((createSummariesTable s).1).subtasksTable = s.subtasksTable := by
  cases h : s.summariesTable <;> simp [createSummariesTable, h]

theorem createSummariesTable_settingsTable (s : Store) :
    ((createSummariesTable s).1).settingsTable = s.settingsTable := by
  cases h : s.summariesTable <;> simp [createSummariesTable, h]

theorem createSummariesTable_indexes (s : Store) :
    ((createSummariesTable s).1).indexes = s.indexes := by
  cases h : s.summariesTable <;> simp [createSummariesTable, h]

theorem createSettingsTable_isSome (s : Store) :
    ((createSettingsTable s).1).settingsTable.isSome = true := by
  cases h : s.settingsTable <;> simp [createSettingsTable, h]

theorem createSettingsTable_some (s : Store) (rows) (h : s.settingsTable = some rows) :
    ((createSettingsTable s).1).settingsTable = some rows := by
  simp [createSettingsTable, h]

theorem createSettingsTable_noop (s : Store) (h : s.settingsTable.isSome = true) :
    createSettingsTable s = (s, 0) := by
  cases h2 : s.settingsTable
  · rw [h2] at h; simp at h
  · simp [createSettingsTable, h2]

theorem createSettingsTable_listsTable (s : Store) :
    ((createSettingsTable s).1).listsTable = s.listsTable := by
  cases h : s.settingsTable <;> simp [createSettingsTable, h]

theorem createSettingsTable_tasksTable (s : Store) :
    ((createSettingsTable s).1).tasksTable = s.tasksTable := by
  cases h : s.settingsTable <;> simp [createSettingsTable, h]

theorem createSettingsTable_subtasksTable (s : Store) :
    ((createSettingsTable s).1).subtasksTable = s.subtasksTable := by
  cases h : s.settingsTable <;> simp [createSettingsTable, h]

theorem createSettingsTable_summariesTable (s : Store) :
    ((createSettingsTable s).1).summariesTable = s.summariesTable := by
  cases h : s.settingsTable <;> simp [createSettingsTable, h]

theorem createSettingsTable_indexes (s : Store) :
    ((createSettingsTable s).1).indexes = s.indexes := by
  cases h : s.settingsTable <;> simp [createSettingsTable, h]

theorem seedInbox_tasksTable (now : Int) (s : Store) :
    ((seedInbox now s).1).tasksTable = s.tasksTable := by
  cases h : s.listsTable with
  | none => simp [seedInbox, h]
  | some rows =>
    by_cases h2 : rows.any (fun l => l.id == "inbox-default") = true <;>
      simp [seedInbox, h, h2]

theorem seedInbox_subtasksTable (now : Int) (s : Store) :
    ((seedInbox now s).1).subtasksTable = s.subtasksTable := by
  cases h : s.listsTable with
  | none => simp [seedInbox, h]
  | some rows =>
    by_cases h2 : rows.any (fun l => l.id == "inbox-default") = true <;>
      simp [seedInbox, h, h2]

theorem seedInbox_summariesTable (now : Int) (s : Store) :
    ((seedInbox now s).1).summariesTable = s.summariesTable := by
  cases h : s.listsTable with
  | none => simp [seedInbox, h]
  | some rows =>
    by_cases h2 : rows.any (fun l => l.id == "inbox-default") = true <;>
      simp [seedInbox, h, h2]

theorem seedInbox_settingsTable (now : Int) (s : Store) :
    ((seedInbox now s).1).settingsTable = s.settingsTable := by
  cases h : s.listsTable with
  | none => simp [seedInbox, h]
  | some rows =>
    by_cases h2 : rows.any (fun l => l.id == "inbox-default") = true <;>
      simp [seedInbox, h, h2]

theorem seedInbox_indexes (now : Int) (s : Store) :
    ((seedInbox now s).1).indexes = s.indexes := by
  cases h : s.listsTable with
  | none => simp [seedInbox, h]
  | some rows =>
    by_cases h2 : rows.any (fun l => l.id == "inbox-default") = true <;>
      simp [seedInbox, h, h2]

theorem seedSetting_listsTable (now : Int) (k v : String) (s : Store) :
    ((seedSetting now k v s).1).listsTable = s.listsTable := by
  cases h : s.settingsTable with
  | none => simp [seedSetting, h]
  | some rows =>
    by_cases h2 : rows.any (fun r => r.key == k) = true <;>
      simp [seedSetting, h, h2]

theorem seedSetting_tasksTable (now : Int) (k v : String) (s : Store) :
    ((seedSetting now k v s).1).tasksTable = s.tasksTable := by
  cases h : s.settingsTable with
  | none => simp [seedSetting, h]
  | some rows =>
    by_cases h2 : rows.any (fun r => r.key == k) = true <;>
      simp [seedSetting, h, h2]

theorem seedSetting_subtasksTable (now : Int) (k v : String) (s : Store) :
    ((seedSetting now k v s).1).subtasksTable = s.subtasksTable := by
  cases h : s.settingsTable with
  | none => simp [seedSetting, h]
  | some rows =>
    by_cases h2 : rows.any (fun r => r.key == k) = true <;>
      simp [seedSetting, h, h2]

theorem seedSetting_summariesTable (now : Int) (k v : String) (s : Store) :
    ((seedSetting now k v s).1).summariesTable = s.summariesTable := by
  cases h : s.settingsTable with
  | none => simp [seedSetting, h]
  | some rows =>
    by_cases h2 : rows.any (fun r => r.key == k) = true <;>
      simp [seedSetting, h, h2]

theorem seedSetting_indexes (now : Int) (k v : String) (s : Store) :
    ((seedSetting now k v s).1).indexes = s.indexes := by
  cases h : s.settingsTable with
  | none => simp [seedSetting, h]
  | some rows =>
    by_cases h2 : rows.any (fun r => r.key == k) = true <;>
      simp [seedSetting, h, h2]

theorem createIndex_listsTable (n : String) (s : Store) :
    ((createIndex n s).1).listsTable = s.listsTable := by
  by_cases h : n ∈ s.indexes <;> simp [createIndex, h]

theorem createIndex_tasksTable (n : String) (s : Store) :
    ((createIndex n s).1).tasksTable = s.tasksTable := by
  by_cases h : n ∈ s.indexes <;> simp [createIndex, h]

theorem createIndex_subtasksTable (n : String) (s : Store) :
    ((createIndex n s).1).subtasksTable = s.subtasksTable := by
  by_cases h : n ∈ s.indexes <;> simp [createIndex, h]

theorem createIndex_summariesTable (n : String) (s : Store) :
    ((createIndex n s).1).summariesTable = s.summariesTable := by
  by_cases h : n ∈ s.indexes <;> simp [createIndex, h]

theorem createIndex_settingsTable (n : String) (s : Store) :
    ((createIndex n s).1).settingsTable = s.settingsTable := by
  by_cases h : n ∈ s.indexes <;> simp [createIndex, h]

theorem seedInbox_noop (now : Int) (s : Store) (h : HasInbox s) :
    seedInbox now s = (s, 0) := by
  obtain ⟨lr, h1, h2⟩ := h
  simp [seedInbox, h1, h2]

theorem seedInbox_hasInbox (now : Int) (s : Store)
    (h : s.listsTable.isSome = true) : HasInbox ((seedInbox now s).1) := by
  cases h1 : s.listsTable with
  | none => rw [h1] at h; simp at h
  | some rows =>
    by_cases h2 : rows.any (fun l => l.id == "inbox-default") = true
    · exact ⟨rows, by simp [seedInbox, h1, h2], h2⟩
    · refine ⟨rows ++ [⟨"inbox-default", "Inbox", some "inbox", none, some 1,
        now * 1000, now * 1000⟩], ?_, ?_⟩
      · simp [seedInbox, h1, h2]
      · simp

theorem seedInbox_some_present (now : Int) (s : Store) (lr : List ListRow)
    (h1 : s.listsTable = some lr)
    (h2 : lr.any (fun l => l.id == "inbox-default") = true) :
    ((seedInbox now s).1).listsTable = some lr := by
  simp [seedInbox, h1, h2]

theorem seedSetting_noop (now : Int) (k v : String) (s : Store)
    (h : HasSettingKey k s) : seedSetting now k v s = (s, 0) := by
  obtain ⟨sr, h1, h2⟩ := h
  simp [seedSetting, h1, h2]

theorem seedSetting_isSome (now : Int) (k v : String) (s : Store)
    (h : s.settingsTable.isSome = true) :
    ((seedSetting now k v s).1).settingsTable.isSome = true := by
  cases h1 : s.settingsTable with
  | none => rw [h1] at h; simp at h
  | some rows =>
    by_cases h2 : rows.any (fun r => r.key == k) = true <;>
      simp [seedSetting, h1, h2]

theorem seedSetting_hasKey (now : Int) (k v : String) (s : Store)
    (h : s.settingsTable.isSome = true) :
    HasSettingKey k ((seedSetting now k v s).1) := by
  cases h1 : s.settingsTable with
  | none => rw [h1] at h; simp at h
  | some rows =>
    by_cases h2 : rows.any (fun r => r.key == k) = true
    · exact ⟨rows, by simp [seedSetting, h1, h2], h2⟩
    · refine ⟨rows ++ [⟨k, v, now * 1000⟩], ?_, ?_⟩
      · simp [seedSetting, h1, h2]
      · simp

theorem seedSetting_keeps_hasKey (now : Int) (k k2 v : String) (s : Store)
    (h : HasSettingKey k s) : HasSettingKey k ((seedSetting now k2 v s).1) := by
  obtain ⟨sr, h1, h2⟩ := h
  by_cases h3 : sr.any (fun r => r.key == k2) = true
  · exact ⟨sr, by simp [seedSetting, h1, h3], h2⟩
  · refine ⟨sr ++ [⟨k2, v, now * 1000⟩], ?_, ?_⟩
    · simp [seedSetting, h1, h3]
    · simp [List.any_append, h2]

theorem seedSetting_filter (now : Int) (k k2 v : String) (s : Store)
    (sr : List SettingRow) (h1 : s.settingsTable = some sr)
    (h2 : sr.any (fun r => r.key == k) = true) :
    ∃ sr2, ((seedSetting now k2 v s).1).settingsTable = some sr2 ∧
      sr2.filter (fun r => r.key == k) = sr.filter (fun r => r.key == k) ∧
      sr2.any (fun r => r.key == k) = true := by
  by_cases h3 : sr.any (fun r => r.key == k2) = true
  · exact ⟨sr, by simp [seedSetting, h1, h3], rfl, h2⟩
  · have hne : k2 ≠ k := fun he => h3 (he ▸ h2)
    have hkk : (k2 == k) = false := by simp [hne]
    refine ⟨sr ++ [⟨k2, v, now * 1000⟩], ?_, ?_, ?_⟩
    · simp [seedSetting, h1, h3]
    · rw [List.filter_append]
      simp [hkk]
    · simp [List.any_append, h2]

theorem createIndex_noop (n : String) (s : Store) (h : n ∈ s.indexes) :
    createIndex n s = (s, 0) := by
  simp [createIndex, h]

theorem createIndex_mem_self (n : String) (s : Store) :
    n ∈ ((createIndex n s).1).indexes := by
  by_cases h : n ∈ s.indexes <;> simp [createIndex, h]

theorem createIndex_keeps_mem (n m : String) (s : Store) (h : m ∈ s.indexes) :
    m ∈ ((createIndex n s).1).indexes := by
  by_cases h2 : n ∈ s.indexes <;> simp [createIndex, h2, h]

theorem hasInbox_isSome (s : Store) (h : HasInbox s) :
    s.listsTable.isSome = true := by
  obtain ⟨lr, h1, _⟩ := h
  simp [h1]

theorem hasSettingKey_isSome (k : String) (s : Store) (h : HasSettingKey k s) :
    s.settingsTable.isSome = true := by
  obtain ⟨sr, h1, _⟩ := h
  simp [h1]

theorem hasInbox_congr (s s2 : Store) (h : s2.listsTable = s.listsTable)
    (h2 : HasInbox s) : HasInbox s2 := by
  obtain ⟨lr, h1, h3⟩ := h2
  exact ⟨lr, h ▸ h1, h3⟩

theorem hasSettingKey_congr (k : String) (s s2 : Store)
    (h : s2.settingsTable = s.settingsTable) (h2 : HasSettingKey k s) :
    HasSettingKey k s2 := by
  obtain ⟨sr, h1, h3⟩ := h2
  exact ⟨sr, h ▸ h1, h3⟩

theorem migration1Effect_fst (now : Int) (s : Store) :
    (migration1Effect now s).1 =
      (createIndex "idx_summaries_period_list"
        (createIndex "idx_subtasks_parent_id"
          (createIndex "idx_tasks_due_date"
            (createIndex "idx_tasks_completed"
              (createIndex "idx_tasks_list_id"
                (seedSetting now "ai" aiDefault
                  (seedSetting now "preferences" preferencesDefault
                    (seedSetting now "appearance" appearanceDefault
                      (seedInbox now
                        (createSettingsTable
                          (createSummariesTable
                            (createSubtasksTable
                              (createTasksTable
                                (createListsTable s).1).1).1).1).1).1).1).1).1).1).1).1).1).1 := by
  simp only [migration1Effect, migration1Statements, runStages]

theorem migrated_after (now : Int) (s : Store) :
    Migrated ((migration1Effect now s).1) := by
  rw [migration1Effect_fst]
  set s1 := (createListsTable s).1 with hs1
  set s2 := (createTasksTable s1).1 with hs2
  set s3 := (createSubtasksTable s2).1 with hs3
  set s4 := (createSummariesTable s3).1 with hs4
  set s5 := (createSettingsTable s4).1 with hs5
  set s6 := (seedInbox now s5).1 with hs6
  set s7 := (seedSetting now "appearance" appearanceDefault s6).1 with hs7
  set s8 := (seedSetting now "preferences" preferencesDefault s7).1 with hs8
  set s9 := (seedSetting now "ai" aiDefault s8).1 with hs9
  set s10 := (createIndex "idx_tasks_list_id" s9).1 with hs10
  set s11 := (createIndex "idx_tasks_completed" s10).1 with hs11
  set s12 := (createIndex "idx_tasks_due_date" s11).1 with hs12
  set s13 := (createIndex "idx_subtasks_parent_id" s12).1 with hs13
  set s14 := (createIndex "idx_summaries_period_list" s13).1 with hs14
  have l5 : s5.listsTable.isSome = true := by
    rw [hs5, createSettingsTable_listsTable, hs4, createSummariesTable_listsTable,
      hs3, createSubtasksTable_listsTable, hs2, createTasksTable_listsTable, hs1]
    exact createListsTable_isSome s
  have i6 : HasInbox s6 := hs6 ▸ seedInbox_hasInbox now s5 l5
  have i14 : HasInbox s14 := by
    refine hasInbox_congr s6 s14 ?_ i6
    rw [hs14, createIndex_listsTable, hs13, createIndex_listsTable,
      hs12, createIndex_listsTable, hs11, createIndex_listsTable,
      hs10, createIndex_listsTable, hs9, seedSetting_listsTable,
      hs8, seedSetting_listsTable, hs7, seedSetting_listsTable]
  have t14 : s14.tasksTable.isSome = true := by
    rw [hs14, createIndex_tasksTable, hs13, createIndex_tasksTable,
      hs12, createIndex_tasksTable, hs11, createIndex_tasksTable,
      hs10, createIndex_tasksTable, hs9, seedSetting_tasksTable,
      hs8, seedSetting_tasksTable, hs7, seedSetting_tasksTable,
      hs6, seedInbox_tasksTable, hs5, createSettingsTable_tasksTable,
      hs4, createSummariesTable_tasksTable, hs3, createSubtasksTable_tasksTable, hs2]
    exact createTasksTable_isSome s1
  have b14 : s14.subtasksTable.isSome = true := by
    rw [hs14, createIndex_subtasksTable, hs13, createIndex_subtasksTable,
      hs12, createIndex_subtasksTable, hs11, createIndex_subtasksTable,
      hs10, createIndex_subtasksTable, hs9, seedSetting_subtasksTable,
      hs8, seedSetting_subtasksTable, hs7, seedSetting_subtasksTable,
      hs6, seedInbox_subtasksTable, hs5, createSettingsTable_subtasksTable,
      hs4, createSummariesTable_subtasksTable, hs3]
    exact createSubtasksTable_isSome s2
  have m14 : s14.summariesTable.isSome = true := by
    rw [hs14, createIndex_summariesTable, hs13, createIndex_summariesTable,
      hs12, createIndex_summariesTable, hs11, createIndex_summariesTable,
      hs10, createIndex_summariesTable, hs9, seedSetting_summariesTable,
      hs8, seedSetting_summariesTable, hs7, seedSetting_summariesTable,
      hs6, seedInbox_summariesTable, hs5, createSettingsTable_summariesTable, hs4]
    exact createSummariesTable_isSome s3
  have st6 : s6.settingsTable.isSome = true := by
    rw [hs6, seedInbox_settingsTable, hs5]
    exact createSettingsTable_isSome s4
  have k7 : HasSettingKey "appearance" s7 :=
    hs7 ▸ seedSetting_hasKey now "appearance" appearanceDefault s6 st6
  have st7 : s7.settingsTable.isSome = true := hasSettingKey_isSome _ s7 k7
  have k8p : HasSettingKey "preferences" s8 :=
    hs8 ▸ seedSetting_hasKey now "preferences" preferencesDefault s7 st7
  have k8a : HasSettingKey "appearance" s8 :=
    hs8 ▸ seedSetting_keeps_hasKey now "appearance" "preferences" preferencesDefault s7 k7
  have st8 : s8.settingsTable.isSome = true := hasSettingKey_isSome _ s8 k8p
  have k9i : HasSettingKey "ai" s9 :=
    hs9 ▸ seedSetting_hasKey now "ai" aiDefault s8 st8
  have k9a : HasSettingKey "appearance" s9 :=
    hs9 ▸ seedSetting_keeps_hasKey now "appearance" "ai" aiDefault s8 k8a
  have k9p : HasSettingKey "preferences" s9 :=
    hs9 ▸ seedSetting_keeps_hasKey now "preferences" "ai" aiDefault s8 k8p
  have eset : s14.settingsTable = s9.settingsTable := by
    rw [hs14, createIndex_settingsTable, hs13, createIndex_settingsTable,
      hs12, createIndex_settingsTable, hs11, createIndex_settingsTable,
      hs10, createIndex_settingsTable]
  have k14a : HasSettingKey "appearance" s14 := hasSettingKey_congr _ s9 s14 eset k9a
  have k14p : HasSettingKey "preferences" s14 := hasSettingKey_congr _ s9 s14 eset k9p
  have k14i : HasSettingKey "ai" s14 := hasSettingKey_congr _ s9 s14 eset k9i
  have x10 : "idx_tasks_list_id" ∈ s10.indexes :=
    hs10 ▸ createIndex_mem_self "idx_tasks_list_id" s9
  have x11 : "idx_tasks_completed" ∈ s11.indexes :=
    hs11 ▸ createIndex_mem_self "idx_tasks_completed" s10
  have x12 : "idx_tasks_due_date" ∈ s12.indexes :=
    hs12 ▸ createIndex_mem_self "idx_tasks_due_date" s11
  have x13 : "idx_subtasks_parent_id" ∈ s13.indexes :=
    hs13 ▸ createIndex_mem_self "idx_subtasks_parent_id" s12
  have x14e : "idx_summaries_period_list" ∈ s14.indexes :=
    hs14 ▸ createIndex_mem_self "idx_summaries_period_list" s13
  have x14a : "idx_tasks_list_id" ∈ s14.indexes := by
    rw [hs14]
    refine createIndex_keeps_mem _ _ s13 ?_
    rw [hs13]
    refine createIndex_keeps_mem _ _ s12 ?_
    rw [hs12]
    refine createIndex_keeps_mem _ _ s11 ?_
    rw [hs11]
    exact createIndex_keeps_mem _ _ s10 x10
  have x14b : "idx_tasks_completed" ∈ s14.indexes := by
    rw [hs14]
    refine createIndex_keeps_mem _ _ s13 ?_
    rw [hs13]
    refine createIndex_keeps_mem _ _ s12 ?_
    rw [hs12]
    exact createIndex_keeps_mem _ _ s11 x11
  have x14c : "idx_tasks_due_date" ∈ s14.indexes := by
    rw [hs14]
    refine createIndex_keeps_mem _ _ s13 ?_
    rw [hs13]
    exact createIndex_keeps_mem _ _ s12 x12
  have x14d : "idx_subtasks_parent_id" ∈ s14.indexes := by
    rw [hs14]
    exact createIndex_keeps_mem _ _ s13 x13
  exact ⟨hasInbox_isSome s14 i14, t14, b14, m14, hasSettingKey_isSome _ s14 k14a,
    i14, k14a, k14p, k14i, x14a, x14b, x14c, x14d, x14e⟩

theorem migration1_noop (now : Int) (s : Store) (h : Migrated s) :
    migration1Effect now s = (s, 0) := by
  obtain ⟨h1, h2, h3, h4, h5, h6, h7, h8, h9, h10, h11, h12, h13, h14⟩ := h
  simp [migration1Effect, migration1Statements, runStages,
    createListsTable_noop s h1, createTasksTable_noop s h2,
    createSubtasksTable_noop s h3, createSummariesTable_noop s h4,
    createSettingsTable_noop s h5, seedInbox_noop now s h6,
    seedSetting_noop now "appearance" appearanceDefault s h7,
    seedSetting_noop now "preferences" preferencesDefault s h8,
    seedSetting_noop now "ai" aiDefault s h9,
    createIndex_noop "idx_tasks_list_id" s h10,
    createIndex_noop "idx_tasks_completed" s h11,
    createIndex_noop "idx_tasks_due_date" s h12,
    createIndex_noop "idx_subtasks_parent_id" s h13,
    createIndex_noop "idx_summaries_period_list" s h14]

theorem resolveColumn_omitted (p : List (String × SqlValue))
    (c : Column) (h : ∀ q ∈ p, q.1 ≠ c.name) :
    p.find? (fun q => q.1 == c.name) = none := by
  rw [List.find?_eq_none]
  intro x hx
  simp [h x hx]

theorem insertCols_mem (now : Int) (p : List (String × SqlValue))
    (cols : List Column) (r : List (String × Option SqlValue)) (c : Column)
    (v : Option SqlValue) (hr : insertCols now p cols = Except.ok r)
    (hc : c ∈ cols) (hv : resolveColumn now p c = Except.ok v) :
    (c.name, v) ∈ r := by
  induction cols generalizing r with
  | nil => simp at hc
  | cons c2 cs ih =>
    rw [List.mem_cons] at hc
    cases h1 : resolveColumn now p c2 with
    | error e => simp [insertCols, h1] at hr
    | ok v2 =>
      cases h2 : insertCols now p cs with
      | error e => simp [insertCols, h1, h2] at hr
      | ok r2 =>
        simp only [insertCols, h1, h2] at hr
        rw [Except.ok.injEq] at hr
        subst hr
        rcases hc with hc | hc
        · subst hc
          rw [h1] at hv
          rw [Except.ok.injEq] at hv
          subst hv
          exact List.mem_cons_self _ _
        · exact List.mem_cons_of_mem _ (ih r2 h2 hc)

theorem insertCols_error (now : Int) (p : List (String × SqlValue))
    (cols : List Column) (c : Column) (e : String) (hc : c ∈ cols)
    (hv : resolveColumn now p c = Except.error e) :
    ∃ e2, insertCols now p cols = Except.error e2 := by
  induction cols with
  | nil => simp at hc
  | cons c2 cs ih =>
    rw [List.mem_cons] at hc
    cases h1 : resolveColumn now p c2 with
    | error e2 => exact ⟨e2, by simp [insertCols, h1]⟩
    | ok v2 =>
      rcases hc with hc | hc
      · subst hc
        rw [h1] at hv
        simp at hv
      · obtain ⟨e2, h2⟩ := ih hc
        exact ⟨e2, by simp [insertCols, h1, h2]⟩

/-- C1: on a fresh (empty) store, the version-1 migration step leaves exactly
one row in the lists table, with id "inbox-default", name "Inbox", icon
"inbox" and order 1, and exactly three rows in the settings table, with keys
"appearance", "preferences" and "ai" and exactly the default JSON payloads of
the source. -/
theorem migration1_seeds_defaults (now : Int) :
    (migration1Effect now emptyStore).1.listsTable =
      some [⟨"inbox-default", "Inbox", some "inbox", none, some 1,
        now * 1000, now * 1000⟩] ∧
    (migration1Effect now emptyStore).1.settingsTable =
      some [⟨"appearance", appearanceDefault, now * 1000⟩,
        ⟨"preferences", preferencesDefault, now * 1000⟩,
        ⟨"ai", aiDefault, now * 1000⟩] :=
  ⟨rfl, rfl⟩

/-- C2: the version-1 migration step is idempotent: on any store that has the
step applied once, applying it a second time performs zero writes and leaves
the store unchanged. -/
theorem migration1_idempotent (now1 now2 : Int) (s : Store) :
    migration1Effect now2 ((migration1Effect now1 s).1) =
      ((migration1Effect now1 s).1, 0) :=
  migration1_noop now2 ((migration1Effect now1 s).1) (migrated_after now1 s)

/-- C7 counterexample: the tasks table of the source DDL has no column named
completion_percentage (the source spells it complete_percentage). -/
theorem tasks_no_completion_percentage_column :
    (tasksColumns.map Column.name).contains "completion_percentage" = false := by
  decide

/-- C7 amended: after the first migration on a fresh store the tasks table
exists, and its columns are exactly those of the source DDL; the optional
integer completion-percentage column is named complete_percentage. -/
theorem tasks_columns_as_declared (now : Int) :
    (migration1Effect now emptyStore).1.tasksTable.isSome = true ∧
    tasksColumns.map Column.name =
      ["id", "title", "completed", "completed_at", "complete_percentage",
       "due_date", "list_id", "list_name", "content", "order", "created_at",
       "updated_at", "tags", "priority", "group_category"] ∧
    (⟨"complete_percentage", ColType.integer, false, false,
      ColDefault.noDefault⟩ : Column) ∈ tasksColumns :=
  ⟨rfl, by decide, by decide⟩

/-- C8 counterexample: on a store whose recorded version is already 2, open
succeeds without applying any step and the recorded version stays 2, so it is
not 1 after every successful open. -/
theorem openStore_version_above_one :
    (openStore 0 ⟨none, none, none, none, none, [], 2⟩).1.version = 2 ∧
    ¬(openStore 0 ⟨none, none, none, none, none, [], 2⟩).1.version = 1 := by
  decide

/-- C8 amended: the registry is the single static step (version 1,
"create_initial_tables", kind Up), and after open succeeds on any store whose
recorded version is at most 1 (every store the engine itself can produce) the
recorded schema version is exactly 1. -/
theorem registry_single_step_version_one (now : Int) (s : Store)
    (h : s.version ≤ 1) :
    migrations = [⟨1, "create_initial_tables", MigrationKind.Up⟩] ∧
    (openStore now s).1.version = 1 := by
  refine ⟨rfl, ?_⟩
  rcases Nat.le_one_iff_eq_zero_or_eq_one.mp h with h0 | h1
  · simp [openStore, migrations, h0, runStages, applyStep]
  · simp [openStore, migrations, h1, runStages]

/-- Witness for C8 amended at the empty store. -/
theorem registry_single_step_version_one_witness :
    emptyStore.version ≤ 1 ∧
    (migrations = [⟨1, "create_initial_tables", MigrationKind.Up⟩] ∧
      (openStore 0 emptyStore).1.version = 1) :=
  ⟨by decide, registry_single_step_version_one 0 emptyStore (by decide)⟩

/-- C3: deleting a List sets list_id to null on exactly the task rows that
referenced it, leaves every other column of every task row unchanged, and
deletes no task row. -/
theorem deleteList_soft_orphans (lid : String) (s : Store) (ts : List TaskRow)
    (h : s.tasksTable = some ts) :
    ∃ ts2, (deleteList lid s).tasksTable = some ts2 ∧
      ts2.length = ts.length ∧
      ∀ (i : Nat) (hi : i < ts.length) (hi2 : i < ts2.length),
        TaskOrphanFrame lid (ts.get ⟨i, hi⟩) (ts2.get ⟨i, hi2⟩) := by
  refine ⟨ts.map (fun t =>
    if t.list_id = some lid then { t with list_id := none } else t), ?_, ?_, ?_⟩
  · simp [deleteList, h]
  · simp
  · intro i hi hi2
    have e : (ts.map (fun t =>
        if t.list_id = some lid then { t with list_id := none } else t)).get ⟨i, hi2⟩ =
        (fun t => if t.list_id = some lid then { t with list_id := none } else t)
          (ts.get ⟨i, hi⟩) := by
      simp
    rw [e]
    simp only [List.get_eq_getElem]
    by_cases hl : ts[i].list_id = some lid <;> simp [TaskOrphanFrame, hl]

/-- Witness for C3 on a concrete populated store. -/
theorem deleteList_soft_orphans_witness :
    storeSample.tasksTable = some [taskSample] ∧
    (∃ ts2, (deleteList "l1" storeSample).tasksTable = some ts2 ∧
      ts2.length = [taskSample].length ∧
      ∀ (i : Nat) (hi : i < [taskSample].length) (hi2 : i < ts2.length),
        TaskOrphanFrame "l1" ([taskSample].get ⟨i, hi⟩) (ts2.get ⟨i, hi2⟩)) :=
  ⟨rfl, deleteList_soft_orphans "l1" storeSample [taskSample] rfl⟩

/-- C4: deleting a Task cascade-deletes exactly the subtask rows whose
parent_id equals the deleted id: a subtask row remains in the table after the
delete precisely when it was there before and referenced a different
parent. -/
theorem deleteTask_cascades (tid : String) (s : Store)
    (sts : List SubtaskRow) (h : s.subtasksTable = some sts) :
    ∃ sts2, (deleteTask tid s).subtasksTable = some sts2 ∧
      ∀ st : SubtaskRow, st ∈ sts2 ↔ (st ∈ sts ∧ st.parent_id ≠ tid) := by
  refine ⟨sts.filter (fun st => !(st.parent_id == tid)), ?_, ?_⟩
  · simp [deleteTask, h]
  · intro st
    simp [List.mem_filter]

/-- Witness for C4 on a concrete populated store. -/
theorem deleteTask_cascades_witness :
    storeSample.subtasksTable = some [subtaskSample, subtaskSample2] ∧
    (∃ sts2, (deleteTask "t1" storeSample).subtasksTable = some sts2 ∧
      ∀ st : SubtaskRow, st ∈ sts2 ↔
        (st ∈ [subtaskSample, subtaskSample2] ∧ st.parent_id ≠ "t1")) :=
  ⟨rfl, deleteTask_cascades "t1" storeSample [subtaskSample, subtaskSample2] rfl⟩

/-- C5: the version-1 migration step never overwrites rows that already
exist: every settings key already present keeps exactly its rows (in
particular its value), and a pre-existing lists row with id "inbox-default"
leaves the lists table entirely unchanged. -/
theorem migration1_keeps_existing_rows (now : Int) (s : Store) (k : String)
    (sr : List SettingRow) (lr : List ListRow)
    (hs : s.settingsTable = some sr) (hl : s.listsTable = some lr) :
    (sr.any (fun r => r.key == k) = true →
      ∃ sr2, (migration1Effect now s).1.settingsTable = some sr2 ∧
        sr2.filter (fun r => r.key == k) = sr.filter (fun r => r.key == k)) ∧
    (lr.any (fun l => l.id == "inbox-default") = true →
      (migration1Effect now s).1.listsTable = some lr) := by
  rw [migration1Effect_fst]
  set s1 := (createListsTable s).1 with hs1
  set s2 := (createTasksTable s1).1 with hs2
  set s3 := (createSubtasksTable s2).1 with hs3
  set s4 := (createSummariesTable s3).1 with hs4
  set s5 := (createSettingsTable s4).1 with hs5
  set s6 := (seedInbox now s5).1 with hs6
  set s7 := (seedSetting now "appearance" appearanceDefault s6).1 with hs7
  set s8 := (seedSetting now "preferences" preferencesDefault s7).1 with hs8
  set s9 := (seedSetting now "ai" aiDefault s8).1 with hs9
  set s10 := (createIndex "idx_tasks_list_id" s9).1 with hs10
  set s11 := (createIndex "idx_tasks_completed" s10).1 with hs11
  set s12 := (createIndex "idx_tasks_due_date" s11).1 with hs12
  set s13 := (createIndex "idx_subtasks_parent_id" s12).1 with hs13
  set s14 := (createIndex "idx_summaries_period_list" s13).1 with hs14
  constructor
  · intro hk
    have e5 : s5.settingsTable = some sr := by
      rw [hs5]
      refine createSettingsTable_some s4 sr ?_
      rw [hs4, createSummariesTable_settingsTable, hs3,
        createSubtasksTable_settingsTable, hs2, createTasksTable_settingsTable,
        hs1, createListsTable_settingsTable]
      exact hs
    have e6 : s6.settingsTable = some sr := by
      rw [hs6, seedInbox_settingsTable]
      exact e5
    obtain ⟨sr7, e7, f7, a7⟩ :=
      seedSetting_filter now k "appearance" appearanceDefault s6 sr e6 hk
    rw [← hs7] at e7
    obtain ⟨sr8, e8, f8, a8⟩ :=
      seedSetting_filter now k "preferences" preferencesDefault s7 sr7 e7 a7
    rw [← hs8] at e8
    obtain ⟨sr9, e9, f9, _⟩ :=
      seedSetting_filter now k "ai" aiDefault s8 sr8 e8 a8
    rw [← hs9] at e9
    refine ⟨sr9, ?_, ?_⟩
    · rw [hs14, createIndex_settingsTable, hs13, createIndex_settingsTable,
        hs12, createIndex_settingsTable, hs11, createIndex_settingsTable,
        hs10, createIndex_settingsTable]
      exact e9
    · rw [f9, f8, f7]
  · intro hi
    have e5l : s5.listsTable = some lr := by
      rw [hs5, createSettingsTable_listsTable, hs4,
        createSummariesTable_listsTable, hs3, createSubtasksTable_listsTable,
        hs2, createTasksTable_listsTable, hs1]
      exact createListsTable_some s lr hl
    have e6l : s6.listsTable = some lr := by
      rw [hs6]
      exact seedInbox_some_present now s5 lr e5l hi
    rw [hs14, createIndex_listsTable, hs13, createIndex_listsTable,
      hs12, createIndex_listsTable, hs11, createIndex_listsTable,
      hs10, createIndex_listsTable, hs9, seedSetting_listsTable,
      hs8, seedSetting_listsTable, hs7, seedSetting_listsTable]
    exact e6l

/-- Witness for C5 on a concrete store holding a customised appearance row
and the inbox list row. -/
theorem migration1_keeps_existing_rows_witness :
    storeSample.settingsTable = some [settingSample] ∧
    storeSample.listsTable = some [listRowSample] ∧
    (([settingSample].any (fun r => r.key == "appearance") = true →
      ∃ sr2, (migration1Effect 9 storeSample).1.settingsTable = some sr2 ∧
        sr2.filter (fun r => r.key == "appearance") =
          [settingSample].filter (fun r => r.key == "appearance")) ∧
    ([listRowSample].any (fun l => l.id == "inbox-default") = true →
      (migration1Effect 9 storeSample).1.listsTable = some [listRowSample])) :=
  ⟨rfl, rfl, migration1_keeps_existing_rows 9 storeSample "appearance"
    [settingSample] [listRowSample] rfl rfl⟩

theorem insertCols_missing_timestamp (now : Int) (p : List (String × SqlValue))
    (cols : List Column)
    (hcr : (⟨"created_at", ColType.integer, true, false,
      ColDefault.noDefault⟩ : Column) ∈ cols)
    (hup : (⟨"updated_at", ColType.integer, true, false,
      ColDefault.noDefault⟩ : Column) ∈ cols)
    (h : (∀ q ∈ p, q.1 ≠ "created_at") ∨ (∀ q ∈ p, q.1 ≠ "updated_at")) :
    ∃ e, insertCols now p cols = Except.error e := by
  rcases h with h | h
  · exact insertCols_error now p cols _ "NOT NULL constraint failed: created_at"
      hcr (by simp [resolveColumn, resolveColumn_omitted p ⟨"created_at",
        ColType.integer, true, false, ColDefault.noDefault⟩ h])
  · exact insertCols_error now p cols _ "NOT NULL constraint failed: updated_at"
      hup (by simp [resolveColumn, resolveColumn_omitted p ⟨"updated_at",
        ColType.integer, true, false, ColDefault.noDefault⟩ h])

/-- C6: after the first migration on a brand-new store the tasks table
exists; its group_category column is declared NOT NULL, and every successful
insert that omits the column produces the sentinel value nodate for it. -/
theorem group_category_not_null_default (now : Int)
    (p : List (String × SqlValue)) (r : List (String × Option SqlValue))
    (homit : ∀ q ∈ p, q.1 ≠ "group_category")
    (hok : insertCols now p tasksColumns = Except.ok r) :
    (migration1Effect now emptyStore).1.tasksTable.isSome = true ∧
    (⟨"group_category", ColType.text, true, false,
      ColDefault.textLit "nodate"⟩ : Column) ∈ tasksColumns ∧
    ("group_category", some (SqlValue.text "nodate")) ∈ r := by
  refine ⟨rfl, by decide, ?_⟩
  have hres : resolveColumn now p
      ⟨"group_category", ColType.text, true, false, ColDefault.textLit "nodate"⟩ =
      Except.ok (some (SqlValue.text "nodate")) := by
    simp [resolveColumn, resolveColumn_omitted p ⟨"group_category",
      ColType.text, true, false, ColDefault.textLit "nodate"⟩ homit]
  simpa using insertCols_mem now p tasksColumns r _ _ hok (by decide) hres

/-- Witness for C6 at a concrete tasks insert omitting group_category. -/
theorem group_category_not_null_default_witness :
    (∀ q ∈ taskInsertSample, q.1 ≠ "group_category") ∧
    insertCols 5 taskInsertSample tasksColumns = Except.ok taskInsertResult ∧
    ((migration1Effect 5 emptyStore).1.tasksTable.isSome = true ∧
     (⟨"group_category", ColType.text, true, false,
       ColDefault.textLit "nodate"⟩ : Column) ∈ tasksColumns ∧
     ("group_category", some (SqlValue.text "nodate")) ∈ taskInsertResult) :=
  ⟨by decide, by rfl, group_category_not_null_default 5 taskInsertSample
    taskInsertResult (by decide) (by rfl)⟩

/-- C9: on inserts into tasks and subtasks the completed flag defaults to 0
when omitted, and the tags column of tasks is nullable: a successful insert
omitting tags stores NULL for it. -/
theorem completed_default_and_tags_nullable (now : Int)
    (pT pS : List (String × SqlValue))
    (rT rS : List (String × Option SqlValue))
    (hTc : ∀ q ∈ pT, q.1 ≠ "completed")
    (hTt : ∀ q ∈ pT, q.1 ≠ "tags")
    (hSc : ∀ q ∈ pS, q.1 ≠ "completed")
    (hokT : insertCols now pT tasksColumns = Except.ok rT)
    (hokS : insertCols now pS subtasksColumns = Except.ok rS) :
    ("completed", some (SqlValue.int 0)) ∈ rT ∧
    ("completed", some (SqlValue.int 0)) ∈ rS ∧
    ("tags", none) ∈ rT := by
  refine ⟨?_, ?_, ?_⟩
  · have hres : resolveColumn now pT
        ⟨"completed", ColType.integer, true, false, ColDefault.intLit 0⟩ =
        Except.ok (some (SqlValue.int 0)) := by
      simp [resolveColumn, resolveColumn_omitted pT ⟨"completed",
        ColType.integer, true, false, ColDefault.intLit 0⟩ hTc]
    simpa using insertCols_mem now pT tasksColumns rT _ _ hokT (by decide) hres
  · have hres : resolveColumn now pS
        ⟨"completed", ColType.integer, true, false, ColDefault.intLit 0⟩ =
        Except.ok (some (SqlValue.int 0)) := by
      simp [resolveColumn, resolveColumn_omitted pS ⟨"completed",
        ColType.integer, true, false, ColDefault.intLit 0⟩ hSc]
    simpa using insertCols_mem now pS subtasksColumns rS _ _ hokS (by decide) hres
  · have hres : resolveColumn now pT
        ⟨"tags", ColType.text, false, false, ColDefault.noDefault⟩ =
        Except.ok none := by
      simp [resolveColumn, resolveColumn_omitted pT ⟨"tags",
        ColType.text, false, false, ColDefault.noDefault⟩ hTt]
    simpa using insertCols_mem now pT tasksColumns rT _ _ hokT (by decide) hres

/-- Witness for C9 at concrete tasks and subtasks inserts. -/
theorem completed_default_and_tags_nullable_witness :
    (∀ q ∈ taskInsertSample, q.1 ≠ "completed") ∧
    (∀ q ∈ taskInsertSample, q.1 ≠ "tags") ∧
    (∀ q ∈ subtaskInsertSample, q.1 ≠ "completed") ∧
    (("completed", some (SqlValue.int 0)) ∈ taskInsertResult ∧
     ("completed", some (SqlValue.int 0)) ∈ subtaskInsertResult ∧
     ("tags", none) ∈ taskInsertResult) :=
  ⟨by decide, by decide, by decide,
    completed_default_and_tags_nullable 5 taskInsertSample subtaskInsertSample
      taskInsertResult subtaskInsertResult (by decide) (by decide) (by decide)
      (by rfl) (by rfl)⟩

/-- C10: inserts into tasks, subtasks or summaries that omit created_at (or
updated_at) fail with a NOT NULL constraint error, while inserts into lists
and settings may omit both timestamp columns and succeed, the omitted columns
defaulting to the current epoch-millisecond time. -/
theorem timestamps_required_or_defaulted (now : Int)
    (pT pSub pSum : List (String × SqlValue))
    (hT : (∀ q ∈ pT, q.1 ≠ "created_at") ∨ (∀ q ∈ pT, q.1 ≠ "updated_at"))
    (hSub : (∀ q ∈ pSub, q.1 ≠ "created_at") ∨ (∀ q ∈ pSub, q.1 ≠ "updated_at"))
    (hSum : (∀ q ∈ pSum, q.1 ≠ "created_at") ∨ (∀ q ∈ pSum, q.1 ≠ "updated_at")) :
    (∃ e, insertCols now pT tasksColumns = Except.error e) ∧
    (∃ e, insertCols now pSub subtasksColumns = Except.error e) ∧
    (∃ e, insertCols now pSum summariesColumns = Except.error e) ∧
    insertCols now [("id", SqlValue.text "list-9"),
        ("name", SqlValue.text "Groceries")] listsColumns =
      Except.ok [("id", some (SqlValue.text "list-9")),
        ("name", some (SqlValue.text "Groceries")), ("icon", none),
        ("color", none), ("order", none),
        ("created_at", some (SqlValue.int (now * 1000))),
        ("updated_at", some (SqlValue.int (now * 1000)))] ∧
    insertCols now [("key", SqlValue.text "sync"),
        ("value", SqlValue.text "off")] settingsColumns =
      Except.ok [("key", some (SqlValue.text "sync")),
        ("value", some (SqlValue.text "off")),
        ("updated_at", some (SqlValue.int (now * 1000)))] := by
  refine ⟨?_, ?_, ?_, rfl, rfl⟩
  · exact insertCols_missing_timestamp now pT tasksColumns
      (by decide) (by decide) hT
  · exact insertCols_missing_timestamp now pSub subtasksColumns
      (by decide) (by decide) hSub
  · exact insertCols_missing_timestamp now pSum summariesColumns
      (by decide) (by decide) hSum

/-- Witness for C10 at a concrete value list omitting both timestamps. -/
theorem timestamps_required_or_defaulted_witness :
    (∀ q ∈ omitTimestampsSample, q.1 ≠ "created_at") ∧
    ((∃ e, insertCols 5 omitTimestampsSample tasksColumns = Except.error e) ∧
     (∃ e, insertCols 5 omitTimestampsSample subtasksColumns = Except.error e) ∧
     (∃ e, insertCols 5 omitTimestampsSample summariesColumns = Except.error e) ∧
     insertCols 5 [("id", SqlValue.text "list-9"),
         ("name", SqlValue.text "Groceries")] listsColumns =
       Except.ok [("id", some (SqlValue.text "list-9")),
         ("name", some (SqlValue.text "Groceries")), ("icon", none),
         ("color", none), ("order", none),
         ("created_at", some (SqlValue.int (5 * 1000))),
         ("updated_at", some (SqlValue.int (5 * 1000)))] ∧
     insertCols 5 [("key", SqlValue.text "sync"),
         ("value", SqlValue.text "off")] settingsColumns =
       Except.ok [("key", some (SqlValue.text "sync")),
         ("value", some (SqlValue.text "off")),
         ("updated_at", some (SqlValue.int (5 * 1000)))]) :=
  ⟨by decide, timestamps_required_or_defaulted 5 omitTimestampsSample
    omitTimestampsSample omitTimestampsSample
    (Or.inl (by decide)) (Or.inl (by decide)) (Or.inl (by decide))⟩
